import Mathlib

/-!
Shallow embedding of the Offer/OfferDetail subsystem of the Coderr backend
(`offers/models.py`, `offers/api/serializers.py`, `offers/api/views.py`,
`offers/api/ordering.py`, `offers/api/permissions.py`).

Conventions of the embedding:
* Django model rows become Lean structures; the database becomes an explicit
  `Store` record threaded through the operations.
* Timestamps are abstract ticks (`Nat`); `Store.now` plays the role of
  `django.utils.timezone.now()` / `auto_now`.
* Monetary values (`FloatField price`) are embedded as `ℚ`; `round(x, 2)`
  becomes `round2` (round to nearest at 2 fractional digits).
* Request handlers become functions returning `Except HttpError ...`;
  an `.error` result models the HTTP error response, in which case no state
  transition takes place (Django rolls nothing forward: every error in these
  views is raised before or instead of the persisting statements).
-/

namespace Coderr

/-- A role-typed profile (`user_auth/models.py: Profile`), reduced to the
fields the offers subsystem reads. -/
structure Profile where
  type : String
  first_name : String := ""
  last_name : String := ""
  username : String := ""
  deriving Repr, DecidableEq

/-- An authenticated user (`django.contrib.auth.models.User`): identity,
staff flag, and the optional one-to-one profile (`getattr(user, 'profile',
None)` in the views can yield `None`). -/
structure AuthUser where
  id : Nat
  is_staff : Bool
  profile : Option Profile
  deriving Repr, DecidableEq

/-- `offers/models.py: Offer`. The owning user is stored by id (the FK
column `user_id`). -/
structure Offer where
  id : Nat
  user : Nat
  title : String
  description : String
  image : Option String
  updated_at : Nat
  created_at : Nat
  deriving Repr, DecidableEq

/-- `offers/models.py: OfferDetail`. `offer` is the FK column `offer_id`. -/
structure OfferDetail where
  id : Nat
  title : String
  price : ℚ
  delivery_time_in_days : Int
  offer : Nat
  features : List String
  offer_type : String
  revisions : Int
  deriving Repr, DecidableEq

/-- The relational store: the two offer tables plus id sequences and the
current clock tick. -/
structure Store where
  offers : List Offer
  details : List OfferDetail
  nextOfferId : Nat
  nextDetailId : Nat
  now : Nat
  deriving Repr, DecidableEq

/-- Python `round(x, 2)` on the prices this development evaluates it at:
scale by 100, round to the nearest integer, scale back.  (Python uses
round-half-to-even on binary floats; every concrete price appearing below is
away from a half-way point, where all rounding conventions agree.) -/
def round2 (q : ℚ) : ℚ := (round (q * 100) : ℤ) / 100

/-- `OfferDetail.round_price`: rounds the price attribute to two decimals. -/
def OfferDetail.round_price (d : OfferDetail) : OfferDetail :=
  { d with price := round2 d.price }

/-- A candidate detail record as submitted by a client (one entry of a
`details` JSON array).  Every field is optional: a key may be absent from the
payload.  `id` is what the raw payload carries; the serializer treats it as
read-only. -/
structure DetailData where
  id : Option Nat := none
  title : Option String := none
  revisions : Option Int := none
  delivery_time_in_days : Option Int := none
  price : Option ℚ := none
  features : Option (List String) := none
  offer_type : Option String := none
  deriving Repr, DecidableEq

/-- `OfferDetailSerializer.validate_delivery_time_in_days`. -/
def validate_delivery_time_in_days (v : Int) : List (String × String) :=
  if v < 1 then
    [("delivery_time_in_days", "Eingegebene Lieferzeit muss mindestens 1 Tag betragen.")]
  else []

/-- `OfferDetailSerializer.validate_price`. -/
def validate_price (v : ℚ) : List (String × String) :=
  if v ≤ 1 then [("price", "Eingegebener Preis muss hoeher als 1 sein.")] else []

/-- `OfferDetailSerializer.validate_revisions`. -/
def validate_revisions (v : Int) : List (String × String) :=
  if v < -1 then
    [("revisions", "Eingegebene Anzahl der Revisionen muss eine positive Zahl sein.")]
  else []

/-- `OfferDetailSerializer.validate_features` (`if not value` — an empty list
is falsy). -/
def validate_features (v : List String) : List (String × String) :=
  if v.isEmpty then [("features", "Mindestens eine Feature muss vorhanden sein.")] else []

/-- Field-keyed errors of `OfferDetailSerializer` on one candidate record,
restricted to the four domain rules of the validator.  A field whose key is
absent from the payload raises no error when the model column has a default
(`price`, `delivery_time_in_days`, `revisions` all have model defaults, so
the serializer marks them not-required); `features` is a `JSONField` with no
default, so an absent key yields the framework `required` error — which is
the "empty or absent" case of the contract.  The generic framework checks on
`title`/`offer_type` (presence, length, choices) are outside the validator
under verification and are not modelled. -/
def validate_detail (d : DetailData) : List (String × String) :=
  (match d.revisions with
   | some v => validate_revisions v
   | none => []) ++
  (match d.delivery_time_in_days with
   | some v => validate_delivery_time_in_days v
   | none => []) ++
  (match d.price with
   | some v => validate_price v
   | none => []) ++
  (match d.features with
   | some v => validate_features v
   | none => [("features", "Dieses Feld darf nicht leer sein.")])

/-- `OfferListAPIView.is_business_user`: `profile and profile.type ==
'business'`. -/
def is_business_user (u : AuthUser) : Bool :=
  match u.profile with
  | some p => p.type == "business"
  | none => false

/-- `OrderingHelperOffers.apply_ordering`'s `ordering_map.get(ordering,
"-updated_at")`: the token table, with every unknown token falling back to
the default.  Note the inverted `updated_at` pair, copied literally from the
source. -/
def ordering_map_lookup (ordering : String) : String :=
  if ordering = "-created_at" then "-created_at"
  else if ordering = "created_at" then "created_at"
  else if ordering = "min_price" then "min_price"
  else if ordering = "-min_price" then "-min_price"
  else if ordering = "-updated_at" then "updated_at"
  else if ordering = "updated_at" then "-updated_at"
  else "-updated_at"

/-- The `min_price` annotation `Min('details__price')`: minimum price over
the offer's details, `none` (SQL NULL) when the offer owns no details. -/
def min_price_ann (db : Store) (o : Offer) : Option ℚ :=
  ((db.details.filter (fun d => d.offer == o.id)).map (fun d => d.price)).min?

/-- `Min('details__delivery_time_in_days')` aggregate, as read by
`get_min_delivery_time`. -/
def min_delivery_ann (db : Store) (o : Offer) : Option Int :=
  ((db.details.filter (fun d => d.offer == o.id)).map
    (fun d => d.delivery_time_in_days)).min?

/-- `ORDER BY created_at ASC`. -/
def sortByCreatedAsc (l : List Offer) : List Offer :=
  l.mergeSort (fun a b => a.created_at ≤ b.created_at)

/-- `ORDER BY created_at DESC`. -/
def sortByCreatedDesc (l : List Offer) : List Offer :=
  l.mergeSort (fun a b => b.created_at ≤ a.created_at)

/-- `ORDER BY updated_at ASC`. -/
def sortByUpdatedAsc (l : List Offer) : List Offer :=
  l.mergeSort (fun a b => a.updated_at ≤ b.updated_at)

/-- `ORDER BY updated_at DESC`. -/
def sortByUpdatedDesc (l : List Offer) : List Offer :=
  l.mergeSort (fun a b => b.updated_at ≤ a.updated_at)

/-- Comparison of annotated `min_price` values; SQL NULL sorts first in
ascending order (SQLite placement, the project's development database). -/
def leMinPrice (a b : Option ℚ) : Bool :=
  match a, b with
  | none, _ => true
  | some _, none => false
  | some x, some y => x ≤ y

/-- `ORDER BY min_price ASC`. -/
def sortByMinPriceAsc (db : Store) (l : List Offer) : List Offer :=
  l.mergeSort (fun a b => leMinPrice (min_price_ann db a) (min_price_ann db b))

/-- `ORDER BY min_price DESC`. -/
def sortByMinPriceDesc (db : Store) (l : List Offer) : List Offer :=
  l.mergeSort (fun a b => leMinPrice (min_price_ann db b) (min_price_ann db a))

/-- `queryset.order_by(ordering_field)` for the six field expressions the
map can produce. -/
def order_by (db : Store) (field : String) (l : List Offer) : List Offer :=
  if field = "created_at" then sortByCreatedAsc l
  else if field = "-created_at" then sortByCreatedDesc l
  else if field = "min_price" then sortByMinPriceAsc db l
  else if field = "-min_price" then sortByMinPriceDesc db l
  else if field = "updated_at" then sortByUpdatedAsc l
  else if field = "-updated_at" then sortByUpdatedDesc l
  else l

/-- `OrderingHelperOffers.apply_ordering`: resolve the client token through
the map, then order. -/
def apply_ordering (db : Store) (l : List Offer) (ordering : String) : List Offer :=
  order_by db (ordering_map_lookup ordering) l

/-- The query parameters `OfferListAPIView.get_queryset` reads, already
decoded (`none` = parameter absent or falsy, matching the `if value:`
guard that skips `None` and empty strings). -/
structure QueryParams where
  creator_id : Option Nat := none
  min_price : Option ℚ := none
  max_delivery_time : Option Int := none
  ordering : Option String := none
  deriving Repr, DecidableEq

/-- The three optional filters of `OfferListAPIView.get_queryset`, applied in
source order: `user_id`, `min_price__gte` (on the `Min('details__price')`
annotation; a NULL annotation never satisfies `__gte`), and
`details__delivery_time_in_days__lte` (a join: the offer matches when any
owned detail does). -/
def filterOffers (db : Store) (p : QueryParams) : List Offer :=
  let q1 := match p.creator_id with
    | some c => db.offers.filter (fun o => o.user == c)
    | none => db.offers
  let q2 := match p.min_price with
    | some mp => q1.filter (fun o =>
        match min_price_ann db o with
        | some m => decide (mp ≤ m)
        | none => false)
    | none => q1
  match p.max_delivery_time with
  | some x => q2.filter (fun o =>
      db.details.any (fun d => d.offer == o.id && decide (d.delivery_time_in_days ≤ x)))
  | none => q2

/-- `OfferListAPIView.get_queryset`: filter, then resolve the `ordering`
parameter (defaulting to the literal `'updated_at'` when absent) and order
the filtered set. -/
def get_queryset (db : Store) (p : QueryParams) : List Offer :=
  apply_ordering db (filterOffers db p) (p.ordering.getD "updated_at")

/-- HTTP-level failure outcomes of the offer endpoints.  `typeError` and
`attributeError` stand for uncaught Python exceptions (a 500 at the
boundary). -/
inductive HttpError where
  | notFound
  | forbidden
  | unauthorized
  | businessProfileRequired
  | validation (errs : List (List (String × String)))
  | typeError
  | attributeError
  deriving Repr, DecidableEq

/-- `OfferSerializer.validate`: validate every entry of
`initial_data.get('details', [])`, collecting the error dict of each invalid
entry; fail with the collected list if any, otherwise keep the valid entries
as `validated_details`. -/
def offer_validate (details_data : List DetailData) :
    Except (List (List (String × String))) (List DetailData) :=
  let errors := (details_data.map validate_detail).filter (fun es => !es.isEmpty)
  if errors.isEmpty then
    .ok (details_data.filter (fun d => (validate_detail d).isEmpty))
  else .error errors

/-- Builds the `OfferDetail` row `bulk_create` inserts for one validated
entry: absent keys take the model column defaults (`price=1`,
`delivery_time_in_days=1`, `revisions=-1`); the read-only `id` from the
payload is ignored and a fresh row id assigned.  `bulk_create` does not
invoke the overridden `OfferDetail.save`, so `round_price` is NOT applied on
this path. -/
def materialize_detail (offerId did : Nat) (d : DetailData) : OfferDetail :=
  { id := did
    title := d.title.getD ""
    price := d.price.getD 1
    delivery_time_in_days := d.delivery_time_in_days.getD 1
    offer := offerId
    features := d.features.getD []
    offer_type := d.offer_type.getD ""
    revisions := d.revisions.getD (-1) }

/-- The body of a `POST /offers/` request. -/
structure CreateInput where
  title : String
  description : String
  image : Option String := none
  details : Option (List DetailData) := none
  deriving Repr, DecidableEq

/-- `POST /offers/`: serializer validation first (`OfferSerializer.validate`),
then `perform_create`'s business-profile gate, then `OfferSerializer.create`:
the `Offer` row plus a `bulk_create` of all validated details. -/
def createOffer (db : Store) (caller : AuthUser) (inp : CreateInput) :
    Except HttpError (Store × Offer) :=
  match offer_validate (inp.details.getD []) with
  | .error errs => .error (.validation errs)
  | .ok validated =>
    if !is_business_user caller then .error .businessProfileRequired
    else
      let offer : Offer :=
        { id := db.nextOfferId, user := caller.id, title := inp.title
          description := inp.description, image := inp.image
          updated_at := db.now, created_at := db.now }
      let newDetails := validated.enum.map
        (fun pr => materialize_detail offer.id (db.nextDetailId + pr.1) pr.2)
      .ok ({ db with
              offers := db.offers ++ [offer]
              details := db.details ++ newDetails
              nextOfferId := db.nextOfferId + 1
              nextDetailId := db.nextDetailId + validated.length }, offer)

/-- `IsOwnerOrAdmin.has_object_permission`. -/
def is_owner_or_admin (u : AuthUser) (o : Offer) : Bool :=
  u.id == o.user || u.is_staff

/-- `OfferDetailsAPIView.has_permission_to_delete`, with Python's evaluation
order and short-circuiting kept: the owner test first; otherwise
`user.is_staff and (user.profile.type == 'business' or user.is_staff)`.
`none` models the uncaught attribute error when a staff non-owner has no
profile row. -/
def has_permission_to_delete (u : AuthUser) (o : Offer) : Option Bool :=
  if u.id == o.user then some true
  else if u.is_staff then
    match u.profile with
    | some p => some (p.type == "business" || u.is_staff)
    | none => none
  else some false

/-- `DELETE /offers/{id}`: 404 on an unknown id, then the permission check,
then `offer.delete()` with FK cascade onto the details. -/
def deleteOffer (db : Store) (pk : Nat) (caller : AuthUser) : Except HttpError Store :=
  match db.offers.find? (fun o => o.id == pk) with
  | none => .error .notFound
  | some offer =>
    match has_permission_to_delete caller offer with
    | none => .error .attributeError
    | some false => .error .forbidden
    | some true =>
        .ok { db with
              offers := db.offers.filter (fun o => !(o.id == pk))
              details := db.details.filter (fun d => !(d.offer == pk)) }

/-- One step of the view's detail loop: `OfferDetail.objects.filter(
id=detail_id, offer=instance).update(**detail_data)`.  A queryset `update`
writes exactly the columns present in the payload, leaves the rest, and does
NOT call the model `save` override — so `round_price` is bypassed here. -/
def queryset_update_detail (pk : Nat) (e : DetailData) (d : OfferDetail) : OfferDetail :=
  match e.id with
  | some did =>
    if d.id == did && d.offer == pk then
      { d with
        title := e.title.getD d.title
        revisions := e.revisions.getD d.revisions
        delivery_time_in_days := e.delivery_time_in_days.getD d.delivery_time_in_days
        price := e.price.getD d.price
        features := e.features.getD d.features
        offer_type := e.offer_type.getD d.offer_type }
    else d
  | none => d

/-- The view's `for detail_data in details_data: if detail_id: ...` loop over
the whole detail table, entry by entry. -/
def apply_detail_updates (pk : Nat) : List DetailData → List OfferDetail → List OfferDetail
  | [], ds => ds
  | e :: es, ds =>
    apply_detail_updates pk es
      (match e.id with
       | some _ => ds.map (queryset_update_detail pk e)
       | none => ds)

/-- `AllOfferDetailsSerializer._update_detail_instance`: setattr each given
field, then `detail_instance.save()` — the model save, which rounds the
price. -/
def update_detail_instance (d : OfferDetail) (e : DetailData) : OfferDetail :=
  OfferDetail.round_price
    { d with
      title := e.title.getD d.title
      revisions := e.revisions.getD d.revisions
      delivery_time_in_days := e.delivery_time_in_days.getD d.delivery_time_in_days
      price := e.price.getD d.price
      features := e.features.getD d.features
      offer_type := e.offer_type.getD d.offer_type }

/-- `AllOfferDetailsSerializer._update_details`: entries with an id found
among the offer's current details are applied in place; entries with an
unknown id or no id are skipped. -/
def update_details (pk : Nat) : List DetailData → List OfferDetail → List OfferDetail
  | [], ds => ds
  | e :: es, ds =>
    update_details pk es
      (match e.id with
       | some did =>
         if ds.any (fun d => d.id == did && d.offer == pk) then
           ds.map (fun d =>
             if d.id == did && d.offer == pk then update_detail_instance d e else d)
         else ds
       | none => ds)

/-- The serializer strips the read-only `id` from every validated detail
entry before `update` ever sees it. -/
def strip_read_only_id (e : DetailData) : DetailData := { e with id := none }

/-- The body of a `PATCH /offers/{id}` request: optional scalar fields plus
the optional `details` array (`none` = key absent from the payload). -/
structure OfferPatch where
  title : Option String := none
  description : Option String := none
  image : Option String := none
  details : Option (List DetailData) := none
  deriving Repr, DecidableEq

/-- The trimmed response body built at the end of
`OfferDetailsAPIView.update`. -/
structure UpdatedData where
  id : Nat
  title : String
  description : String
  details : List OfferDetail
  image : Option String
  deriving Repr, DecidableEq

/-- `PATCH /offers/{id}` (`OfferDetailsAPIView.update`), in source order:
`get_object` (404, then the `IsOwnerOrAdmin` object permission for PATCH),
`serializer.is_valid` (`AllOfferDetailsSerializer.validate` runs the full
`OfferDetailSerializer` on every entry of `initial_data.get('details', [])`
and 400s on any failure), then the view's own loop over
`request.data.get('details')` — which is `None` when the key is absent, so
the `for` raises `TypeError` — applying a queryset `update` per entry that
carries an id, then `serializer.save()`: scalar setattr plus
`_update_details` on the validated entries (whose read-only ids were
stripped, so that pass matches nothing) and `instance.save()` (bumping
`updated_at` via `auto_now`). -/
def updateOffer (db : Store) (pk : Nat) (caller : AuthUser) (patch : OfferPatch) :
    Except HttpError (Store × UpdatedData) :=
  match db.offers.find? (fun o => o.id == pk) with
  | none => .error .notFound
  | some inst =>
    if !is_owner_or_admin caller inst then .error .forbidden
    else
      let errors := ((patch.details.getD []).map validate_detail).filter (fun es => !es.isEmpty)
      if !errors.isEmpty then .error (.validation errors)
      else
        match patch.details with
        | none => .error .typeError
        | some entries =>
          let details1 := apply_detail_updates pk entries db.details
          let details2 := update_details pk (entries.map strip_read_only_id) details1
          let inst1 : Offer :=
            { inst with
              title := patch.title.getD inst.title
              description := patch.description.getD inst.description
              image := patch.image <|> inst.image
              updated_at := db.now }
          let db2 : Store :=
            { db with
              offers := db.offers.map (fun o => if o.id == pk then inst1 else o)
              details := details2 }
          let resp : UpdatedData :=
            { id := pk, title := inst1.title, description := inst1.description
              details := details2.filter (fun d => d.offer == pk)
              image := inst1.image }
          .ok (db2, resp)

/-- HTTP methods of the offer endpoints. -/
inductive Method where
  | GET | POST | PATCH | DELETE
  deriving Repr, DecidableEq

/-- The DRF permission classes the offer views use. -/
inductive Perm where
  | allowAny | isAuthenticated | isOwnerOrAdmin
  deriving Repr, DecidableEq

/-- Request-level evaluation of a permission class against an optionally
authenticated caller.  `IsOwnerOrAdmin` defines only an object-level check,
so its request-level `has_permission` is the `BasePermission` default
(always true). -/
def check_permission (caller : Option AuthUser) : Perm → Bool
  | .allowAny => true
  | .isAuthenticated => caller.isSome
  | .isOwnerOrAdmin => true

/-- `OfferListAPIView.get_permissions`: `AllowAny` for GET, the class-level
`IsAuthenticated` otherwise. -/
def offerList_get_permissions (m : Method) : List Perm :=
  if m = .GET then [.allowAny] else [.isAuthenticated]

/-- `OfferDetailsAPIView.get_permissions`: `IsOwnerOrAdmin` for PATCH, the
class-level `IsAuthenticated` otherwise. -/
def offerDetails_get_permissions (m : Method) : List Perm :=
  if m = .PATCH then [.isOwnerOrAdmin] else [.isAuthenticated]

/-- `OfferDetailAPIView.permission_classes`. -/
def offerDetail_permissions : List Perm := [.isAuthenticated]

/-- The full single-offer view the `GET /offers/{id}` handler serializes
(`OfferSerializer` for a non-POST request: details as id references, derived
minima, `user_details` popped by the view). -/
structure OfferReadData where
  id : Nat
  user : Nat
  title : String
  image : Option String
  description : String
  created_at : Nat
  updated_at : Nat
  detail_refs : List Nat
  min_price : Option ℚ
  min_delivery_time : Option Int
  deriving Repr, DecidableEq

/-- Serialization of one offer by `OfferSerializer` as used in
`OfferDetailsAPIView.get` (the `user_details` key is popped before the
response is built). -/
def offer_read_data (db : Store) (o : Offer) : OfferReadData :=
  { id := o.id, user := o.user, title := o.title, image := o.image
    description := o.description, created_at := o.created_at
    updated_at := o.updated_at
    detail_refs := (db.details.filter (fun d => d.offer == o.id)).map (fun d => d.id)
    min_price := min_price_ann db o
    min_delivery_time := min_delivery_ann db o }

/-- `GET /offers/` (the list operation): request permissions
(`AllowAny` for GET), then the filtered and ordered queryset. -/
def listOffers (db : Store) (caller : Option AuthUser) (p : QueryParams) :
    Except HttpError (List Offer) :=
  if !((offerList_get_permissions .GET).all (check_permission caller)) then
    .error .unauthorized
  else .ok (get_queryset db p)

/-- `GET /offers/{id}` (`OfferDetailsAPIView.get`): request permissions
(the class-level `IsAuthenticated`, since `get_permissions` only overrides
PATCH), then 404-or-serialize. -/
def getSingleOffer (db : Store) (caller : Option AuthUser) (pk : Nat) :
    Except HttpError OfferReadData :=
  if !((offerDetails_get_permissions .GET).all (check_permission caller)) then
    .error .unauthorized
  else
    match db.offers.find? (fun o => o.id == pk) with
    | none => .error .notFound
    | some o => .ok (offer_read_data db o)

/-- `GET /offerdetails/{id}` (`OfferDetailAPIView.get`): `IsAuthenticated`,
then 404-or-serialize the single tier. -/
def getSingleDetail (db : Store) (caller : Option AuthUser) (pk : Nat) :
    Except HttpError OfferDetail :=
  if !(offerDetail_permissions.all (check_permission caller)) then
    .error .unauthorized
  else
    match db.details.find? (fun d => d.id == pk) with
    | none => .error .notFound
    | some d => .ok d

/-- Claim C4: the ordering resolution maps `created_at`/`-created_at` to
ascending/descending creation-time order and `min_price`/`-min_price` to
ascending/descending minimum-price order, while the `updated_at` pair is
inverted (`updated_at` sorts descending, `-updated_at` ascending); every
other token — including an absent or empty one — resolves to
most-recently-updated-first order. -/
theorem C4_ordering_resolution (db : Store) (l : List Offer) (t : String) :
    apply_ordering db l "created_at" = sortByCreatedAsc l ∧
    apply_ordering db l "-created_at" = sortByCreatedDesc l ∧
    apply_ordering db l "min_price" = sortByMinPriceAsc db l ∧
    apply_ordering db l "-min_price" = sortByMinPriceDesc db l ∧
    apply_ordering db l "updated_at" = sortByUpdatedDesc l ∧
    apply_ordering db l "-updated_at" = sortByUpdatedAsc l ∧
    (t ∉ ["created_at", "-created_at", "min_price", "-min_price",
          "updated_at", "-updated_at"] →
      apply_ordering db l t = sortByUpdatedDesc l) ∧
    apply_ordering db l ((none : Option String).getD "updated_at") = sortByUpdatedDesc l ∧
    apply_ordering db l ((some "").getD "updated_at") = sortByUpdatedDesc l := by
  refine ⟨rfl, rfl, rfl, rfl, rfl, rfl, ?_, rfl, rfl⟩
  intro h
  simp only [List.mem_cons, List.mem_singleton, not_or] at h
  obtain ⟨h1, h2, h3, h4, h5, ⟨h6, -⟩⟩ := h
  simp [apply_ordering, ordering_map_lookup, order_by, h1, h2, h3, h4, h5, h6]

/-- Witness for C4 at the concrete token `"bogus"` on an empty store. -/
theorem C4_ordering_resolution_witness :
    apply_ordering ⟨[], [], 0, 0, 0⟩ [] "bogus" = sortByUpdatedDesc [] :=
  (C4_ordering_resolution ⟨[], [], 0, 0, 0⟩ [] "bogus").2.2.2.2.2.2.1 (by decide)

/-- Claim C5: a candidate detail record fails validation exactly when
delivery time < 1, or price ≤ 1, or revisions < −1, or the feature list is
empty or absent; the four checks are independent (each failing field is
keyed in the error list exactly when its own condition fails), and the
boundary record delivery_time=1, price=1.01, revisions=−1 passes. -/
theorem C5_detail_validation (dt rv : Int) (p : ℚ) (fo : Option (List String)) :
    (validate_detail
        { delivery_time_in_days := some dt, price := some p,
          revisions := some rv, features := fo } ≠ [] ↔
      (dt < 1 ∨ p ≤ 1 ∨ rv < -1 ∨ fo = none ∨ fo = some [])) ∧
    (("delivery_time_in_days", "Eingegebene Lieferzeit muss mindestens 1 Tag betragen.") ∈
        validate_detail
          { delivery_time_in_days := some dt, price := some p,
            revisions := some rv, features := fo } ↔ dt < 1) ∧
    (("price", "Eingegebener Preis muss hoeher als 1 sein.") ∈
        validate_detail
          { delivery_time_in_days := some dt, price := some p,
            revisions := some rv, features := fo } ↔ p ≤ 1) ∧
    (("revisions", "Eingegebene Anzahl der Revisionen muss eine positive Zahl sein.") ∈
        validate_detail
          { delivery_time_in_days := some dt, price := some p,
            revisions := some rv, features := fo } ↔ rv < -1) ∧
    (("features" ∈ (validate_detail
          { delivery_time_in_days := some dt, price := some p,
            revisions := some rv, features := fo }).map Prod.fst) ↔
      (fo = none ∨ fo = some [])) ∧
    validate_detail
        { delivery_time_in_days := some 1, price := some (101/100),
          revisions := some (-1), features := some ["f"] } = [] := by
  refine ⟨?_, ?_, ?_, ?_, ?_,
      by norm_num [validate_detail, validate_revisions, validate_delivery_time_in_days,
        validate_price, validate_features]⟩ <;>
    by_cases hdt : dt < 1 <;> by_cases hp : p ≤ 1 <;> by_cases hrv : rv < -1 <;>
    rcases fo with _ | ⟨_ | ⟨f, fs⟩⟩ <;>
    simp [validate_detail, validate_revisions, validate_delivery_time_in_days,
      validate_price, validate_features, hdt, hp, hrv]

/-- Counterexample to claim C1: a staff caller whose profile is typed
`customer` and who does not own the offer succeeds in deleting it, although
the claim allows success only for the owner or for an administrator who also
holds a business profile.  The inner disjunction of
`has_permission_to_delete` repeats `user.is_staff`, making the
business-profile conjunct vacuous. -/
theorem C1_counterexample :
    deleteOffer
        { offers := [{ id := 1, user := 1, title := "t", description := "d",
                       image := none, updated_at := 0, created_at := 0 }],
          details := [{ id := 10, title := "basic", price := 2,
                        delivery_time_in_days := 3, offer := 1, features := ["f"],
                        offer_type := "basic", revisions := 0 }],
          nextOfferId := 2, nextDetailId := 11, now := 5 }
        1 { id := 2, is_staff := true, profile := some { type := "customer" } } =
      .ok { offers := [], details := [], nextOfferId := 2, nextDetailId := 11, now := 5 } ∧
    (2 : Nat) ≠ 1 ∧
    is_business_user { id := 2, is_staff := true, profile := some { type := "customer" } } = false := by
  refine ⟨by rfl, by decide, by rfl⟩

/-- Claim C1 as amended: on an existing offer, deletion succeeds exactly when
the caller is the offer's owner or has the administrative (staff) flag — the
business-profile condition plays no role; every other caller (with a profile
row) receives Forbidden, and an error result leaves the store untouched. -/
theorem C1_delete_permission (db : Store) (pk : Nat) (caller : AuthUser) (o : Offer)
    (hfind : db.offers.find? (fun x => x.id == pk) = some o)
    (hprof : caller.profile.isSome = true) :
    ((∃ db2, deleteOffer db pk caller = .ok db2) ↔
      (caller.id = o.user ∨ caller.is_staff = true)) ∧
    (¬(caller.id = o.user ∨ caller.is_staff = true) →
      deleteOffer db pk caller = .error .forbidden) ∧
    ((caller.id = o.user ∨ caller.is_staff = true) →
      deleteOffer db pk caller =
        .ok { db with
              offers := db.offers.filter (fun x => !(x.id == pk))
              details := db.details.filter (fun d => !(d.offer == pk)) }) := by
  obtain ⟨p, hp⟩ := Option.isSome_iff_exists.mp hprof
  by_cases hown : caller.id = o.user
  · simp [deleteOffer, hfind, has_permission_to_delete, hown]
  · by_cases hstaff : caller.is_staff = true
    · simp [deleteOffer, hfind, has_permission_to_delete, hown, hstaff, hp]
    · simp [deleteOffer, hfind, has_permission_to_delete, hown, hstaff, hp]

/-- Witness for C1's amended theorem: the owner deletes their own offer. -/
theorem C1_delete_permission_witness :
    deleteOffer
        { offers := [{ id := 1, user := 7, title := "t", description := "d",
                       image := none, updated_at := 0, created_at := 0 }],
          details := [], nextOfferId := 2, nextDetailId := 1, now := 0 }
        1 { id := 7, is_staff := false, profile := some { type := "business" } } =
      .ok { offers := [], details := [], nextOfferId := 2, nextDetailId := 1, now := 0 } := by
  have h := (C1_delete_permission
    { offers := [{ id := 1, user := 7, title := "t", description := "d",
                   image := none, updated_at := 0, created_at := 0 }],
      details := [], nextOfferId := 2, nextDetailId := 1, now := 0 }
    1 { id := 7, is_staff := false, profile := some { type := "business" } }
    { id := 1, user := 7, title := "t", description := "d",
      image := none, updated_at := 0, created_at := 0 }
    (by decide) (by decide)).2.2 (Or.inl rfl)
  simpa using h

/-- Claim C2 evaluated at its failing input (code bug): a detail created with
price 5.999 is persisted with price 5.999, not 6.00 — `OfferSerializer.create`
persists details through `bulk_create`, which never calls the overridden
`OfferDetail.save`, so `round_price` is skipped (the same holds for the
queryset `update` in `OfferDetailsAPIView.update`).  The model save itself
would round, as the last conjunct shows. -/
theorem C2_create_price_not_rounded :
    (createOffer { offers := [], details := [], nextOfferId := 1, nextDetailId := 1, now := 0 }
        { id := 1, is_staff := false, profile := some { type := "business" } }
        { title := "t", description := "d", image := none,
          details := some [{ title := some "basic", revisions := some 0,
                             delivery_time_in_days := some 3, price := some (mkRat 5999 1000),
                             features := some ["f"], offer_type := some "basic" }] }).toOption.map
        (fun r => r.1.details.map (fun d => d.price)) = some [mkRat 5999 1000] ∧
    (mkRat 5999 1000 : ℚ) = 5999/1000 ∧
    round2 (mkRat 5999 1000) = 6 ∧
    (mkRat 5999 1000 : ℚ) ≠ 6 ∧
    (OfferDetail.round_price
        { id := 1, title := "basic", price := mkRat 5999 1000, delivery_time_in_days := 3,
          offer := 1, features := ["f"], offer_type := "basic", revisions := 0 }).price = 6 := by
  refine ⟨by rfl, by norm_num [Rat.mkRat_eq_div], ?_, by decide, ?_⟩
  · rw [round2, round_eq]
    norm_num [Rat.mkRat_eq_div]
  · show round2 (mkRat 5999 1000) = 6
    rw [round2, round_eq]
    norm_num [Rat.mkRat_eq_div]

/-- Counterexample to claim C3: the single-offer read rejects an
unauthenticated caller — `OfferDetailsAPIView` keeps the class-level
`IsAuthenticated` for GET (`get_permissions` only overrides PATCH), so only
the list operation is open. -/
theorem C3_counterexample :
    getSingleOffer
        { offers := [{ id := 1, user := 1, title := "t", description := "d",
                       image := none, updated_at := 0, created_at := 0 }],
          details := [], nextOfferId := 2, nextDetailId := 1, now := 0 }
        none 1 = .error .unauthorized := rfl

/-- Claim C3 as amended: the offer list operation is open to every caller
(including unauthenticated), but the single-offer read and the single-tier
read require an authenticated caller; once authenticated, the single-offer
read of an existing offer succeeds with its full view. -/
theorem C3_read_permissions (db : Store) (p : QueryParams) (caller : Option AuthUser)
    (u : AuthUser) (pk pk2 : Nat) (o : Offer)
    (hfind : db.offers.find? (fun x => x.id == pk) = some o) :
    listOffers db caller p = .ok (get_queryset db p) ∧
    getSingleOffer db none pk2 = .error .unauthorized ∧
    getSingleDetail db none pk2 = .error .unauthorized ∧
    getSingleOffer db (some u) pk = .ok (offer_read_data db o) := by
  refine ⟨rfl, rfl, rfl, ?_⟩
  simp [getSingleOffer, offerDetails_get_permissions, check_permission, hfind]

/-- Witness for C3's amended theorem on a one-offer store. -/
theorem C3_read_permissions_witness :
    getSingleOffer
        { offers := [{ id := 1, user := 1, title := "t", description := "d",
                       image := none, updated_at := 0, created_at := 0 }],
          details := [], nextOfferId := 2, nextDetailId := 1, now := 0 }
        (some { id := 9, is_staff := false, profile := none }) 1 =
      .ok (offer_read_data
        { offers := [{ id := 1, user := 1, title := "t", description := "d",
                       image := none, updated_at := 0, created_at := 0 }],
          details := [], nextOfferId := 2, nextDetailId := 1, now := 0 }
        { id := 1, user := 1, title := "t", description := "d",
          image := none, updated_at := 0, created_at := 0 }) :=
  (C3_read_permissions
    { offers := [{ id := 1, user := 1, title := "t", description := "d",
                   image := none, updated_at := 0, created_at := 0 }],
      details := [], nextOfferId := 2, nextDetailId := 1, now := 0 }
    {} (some { id := 9, is_staff := false, profile := none })
    { id := 9, is_staff := false, profile := none } 1 0
    { id := 1, user := 1, title := "t", description := "d",
      image := none, updated_at := 0, created_at := 0 }
    (by decide)).2.2.2

/-- Claim C6: creation is all-or-nothing.  If any submitted detail is
invalid, the request fails with a `ValidationError` collecting the error
dict of every invalid detail (validation happens before anything is
persisted, so the error result carries no new store — neither the Offer nor
any Detail exists); if all details are valid, the Offer and all its Details
are persisted in one step, owned by the calling user. -/
theorem C6_create_atomicity (db : Store) (caller : AuthUser) (inp : CreateInput)
    (hbiz : is_business_user caller = true) :
    ((∃ d ∈ inp.details.getD [], validate_detail d ≠ []) →
      createOffer db caller inp =
        .error (.validation
          (((inp.details.getD []).map validate_detail).filter (fun es => !es.isEmpty)))) ∧
    ((∀ d ∈ inp.details.getD [], validate_detail d = []) →
      ∃ db2 o, createOffer db caller inp = .ok (db2, o) ∧
        o.user = caller.id ∧
        db2.offers = db.offers ++ [o] ∧
        db2.details = db.details ++ ((inp.details.getD []).enum.map
          (fun pr => materialize_detail o.id (db.nextDetailId + pr.1) pr.2))) := by
  constructor
  · rintro ⟨d, hd, hne⟩
    have hmem : validate_detail d ∈ (inp.details.getD []).map validate_detail :=
      List.mem_map_of_mem _ hd
    have hfe : validate_detail d ∈
        ((inp.details.getD []).map validate_detail).filter (fun es => !es.isEmpty) :=
      List.mem_filter.mpr ⟨hmem, by simpa [List.isEmpty_iff] using hne⟩
    have hne2 : (((inp.details.getD []).map validate_detail).filter
        (fun es => !es.isEmpty)).isEmpty = false := by
      have := List.ne_nil_of_mem hfe
      simpa [List.isEmpty_iff] using this
    simp [createOffer, offer_validate, hne2]
  · intro h
    have herr : (((inp.details.getD []).map validate_detail).filter
        (fun es => !es.isEmpty)) = [] := by
      rw [List.filter_eq_nil_iff]
      intro es hes
      obtain ⟨d, hd, rfl⟩ := List.mem_map.mp hes
      simp [List.isEmpty_iff, h d hd]
    have hfilter : (inp.details.getD []).filter
        (fun d => (validate_detail d).isEmpty) = inp.details.getD [] := by
      rw [List.filter_eq_self]
      intro d hd
      simp [List.isEmpty_iff, h d hd]
    let onew : Offer :=
      { id := db.nextOfferId, user := caller.id, title := inp.title,
        description := inp.description, image := inp.image,
        updated_at := db.now, created_at := db.now }
    let dbnew : Store :=
      { db with
        offers := db.offers ++ [onew]
        details := db.details ++ ((inp.details.getD []).enum.map
          (fun pr => materialize_detail onew.id (db.nextDetailId + pr.1) pr.2))
        nextOfferId := db.nextOfferId + 1
        nextDetailId := db.nextDetailId + (inp.details.getD []).length }
    refine ⟨dbnew, onew, ?_, rfl, rfl, rfl⟩
    simp [createOffer, offer_validate, herr, hfilter, hbiz, onew, dbnew]

/-- Witness for C6: a business user creates an offer with one valid detail. -/
theorem C6_create_atomicity_witness :
    ∃ db2 o,
      createOffer { offers := [], details := [], nextOfferId := 1, nextDetailId := 1, now := 0 }
        { id := 4, is_staff := false, profile := some { type := "business" } }
        { title := "t", description := "d", image := none,
          details := some [{ title := some "basic", revisions := some 0,
                             delivery_time_in_days := some 3, price := some (mkRat 2 1),
                             features := some ["f"], offer_type := some "basic" }] } =
        .ok (db2, o) ∧
      o.user = 4 ∧
      db2.offers = [] ++ [o] ∧
      db2.details = [] ++ ([({ title := some "basic", revisions := some 0,
                               delivery_time_in_days := some 3, price := some (mkRat 2 1),
                               features := some ["f"],
                               offer_type := some "basic" } : DetailData)].enum.map
        (fun pr => materialize_detail o.id (1 + pr.1) pr.2)) :=
  (C6_create_atomicity
    { offers := [], details := [], nextOfferId := 1, nextDetailId := 1, now := 0 }
    { id := 4, is_staff := false, profile := some { type := "business" } }
    { title := "t", description := "d", image := none,
      details := some [{ title := some "basic", revisions := some 0,
                         delivery_time_in_days := some 3, price := some (mkRat 2 1),
                         features := some ["f"], offer_type := some "basic" }] }
    (by rfl)).2 (by decide)

/-- Claim C7 evaluated at its failing input (code bug): an authorized
owner's patch that carries only a scalar change and no `details` key does
not succeed — `OfferDetailsAPIView.update` iterates
`request.data.get('details')`, which is `None` when the key is absent, so
the request dies with a `TypeError` (an opaque 500) instead of applying the
scalar change.  The second conjunct shows the nearby behavior: the same
patch with an (even empty) `details` list succeeds and applies the title
change. -/
theorem C7_scalar_update_requires_details_key :
    updateOffer
        { offers := [{ id := 1, user := 1, title := "t", description := "d",
                       image := none, updated_at := 0, created_at := 0 }],
          details := [{ id := 10, title := "basic", price := 2,
                        delivery_time_in_days := 3, offer := 1, features := ["f"],
                        offer_type := "basic", revisions := 0 }],
          nextOfferId := 2, nextDetailId := 11, now := 7 }
        1 { id := 1, is_staff := false, profile := some { type := "business" } }
        { title := some "Neu", description := none, image := none, details := none } =
      .error .typeError ∧
    updateOffer
        { offers := [{ id := 1, user := 1, title := "t", description := "d",
                       image := none, updated_at := 0, created_at := 0 }],
          details := [{ id := 10, title := "basic", price := 2,
                        delivery_time_in_days := 3, offer := 1, features := ["f"],
                        offer_type := "basic", revisions := 0 }],
          nextOfferId := 2, nextDetailId := 11, now := 7 }
        1 { id := 1, is_staff := false, profile := some { type := "business" } }
        { title := some "Neu", description := none, image := none, details := some [] } =
      .ok ({ offers := [{ id := 1, user := 1, title := "Neu", description := "d",
                          image := none, updated_at := 7, created_at := 0 }],
             details := [{ id := 10, title := "basic", price := 2,
                           delivery_time_in_days := 3, offer := 1, features := ["f"],
                           offer_type := "basic", revisions := 0 }],
             nextOfferId := 2, nextDetailId := 11, now := 7 },
           { id := 1, title := "Neu", description := "d",
             details := [{ id := 10, title := "basic", price := 2,
                           delivery_time_in_days := 3, offer := 1, features := ["f"],
                           offer_type := "basic", revisions := 0 }],
             image := none }) := by
  exact ⟨rfl, rfl⟩

/-- The serializer-side detail pass of `updateOffer` is a no-op: every
validated entry had its read-only id stripped, so `_update_details` matches
nothing. -/
lemma update_details_strip_noop (pk : Nat) (entries : List DetailData)
    (details : List OfferDetail) :
    update_details pk (entries.map strip_read_only_id) details = details := by
  induction entries generalizing details with
  | nil => rfl
  | cons e es ih => exact ih details

/-- A detail whose id is mentioned by no entry survives the view's queryset
update loop unchanged. -/
lemma apply_detail_updates_mem (pk : Nat) (entries : List DetailData)
    (details : List OfferDetail) (d : OfferDetail)
    (hd : d ∈ details) (h : ∀ e ∈ entries, e.id ≠ some d.id) :
    d ∈ apply_detail_updates pk entries details := by
  induction entries generalizing details with
  | nil => exact hd
  | cons e es ih =>
      have he := h e (List.mem_cons_self e es)
      have hes : ∀ x ∈ es, x.id ≠ some d.id := fun x hx => h x (List.mem_cons_of_mem _ hx)
      cases heid : e.id with
      | none =>
          simpa [apply_detail_updates, heid] using ih details hd hes
      | some did =>
          have hne : d.id ≠ did := fun hh => he (by rw [heid, hh])
          have hfix : queryset_update_detail pk e d = d := by
            simp [queryset_update_detail, heid, hne]
          have hd2 : d ∈ details.map (queryset_update_detail pk e) :=
            List.mem_map.mpr ⟨d, hd, hfix⟩
          simpa [apply_detail_updates, heid] using ih _ hd2 hes

/-- When no entry's id matches a detail row of the target offer, the view's
queryset update loop changes nothing at all. -/
lemma apply_detail_updates_noop (pk : Nat) (entries : List DetailData)
    (details : List OfferDetail)
    (h : ∀ e ∈ entries, ∀ d ∈ details, e.id = some d.id → d.offer ≠ pk) :
    apply_detail_updates pk entries details = details := by
  induction entries with
  | nil => rfl
  | cons e es ih =>
      have hes : ∀ x ∈ es, ∀ d ∈ details, x.id = some d.id → d.offer ≠ pk :=
        fun x hx => h x (List.mem_cons_of_mem _ hx)
      cases heid : e.id with
      | none => simpa [apply_detail_updates, heid] using ih hes
      | some did =>
          have hmap : details.map (queryset_update_detail pk e) = details := by
            have : details.map (queryset_update_detail pk e) = details.map id := by
              apply List.map_congr_left
              intro d hd
              by_cases hid : d.id = did
              · have hoff : d.offer ≠ pk :=
                  h e (List.mem_cons_self e es) d hd (by rw [heid, hid])
                simp [queryset_update_detail, heid, hoff]
              · simp [queryset_update_detail, heid, hid]
            simpa using this
          simpa [apply_detail_updates, heid, hmap] using ih hes

/-- Counterexample to claim C8: a patch whose `details` contains an entry
with an identity unknown to the offer — and nothing else — is not ignored:
`AllOfferDetailsSerializer.validate` runs the full detail validator on every
entry first, so the bare entry fails (its `features` key is absent) and the
whole update is rejected with a `ValidationError` instead of succeeding. -/
theorem C8_counterexample :
    updateOffer
        { offers := [{ id := 1, user := 1, title := "t", description := "d",
                       image := none, updated_at := 0, created_at := 0 }],
          details := [{ id := 10, title := "basic", price := 2,
                        delivery_time_in_days := 3, offer := 1, features := ["f"],
                        offer_type := "basic", revisions := 0 }],
          nextOfferId := 2, nextDetailId := 11, now := 7 }
        1 { id := 1, is_staff := false, profile := some { type := "business" } }
        { title := none, description := none, image := none,
          details := some [{ id := some 999 }] } =
      .error (.validation [[("features", "Dieses Feld darf nicht leer sein.")]]) := rfl

/-- Claim C8 as amended: for an authorized update whose `details` entries all
pass detail validation, each entry whose identity is not among the target
offer's current Details, or which carries no identity, is ignored: the
operation succeeds, every detail row of the store that no entry matches is
still present afterwards, and if no entry matches any detail row of the
target offer the detail table is unchanged.  (An entry that fails detail
validation instead aborts the whole update with a `ValidationError`, see the
counterexample.) -/
theorem C8_update_ignores_unknown_detail_ids (db : Store) (pk : Nat)
    (caller : AuthUser) (inst : Offer) (t de img : Option String)
    (entries : List DetailData)
    (hfind : db.offers.find? (fun o => o.id == pk) = some inst)
    (hperm : is_owner_or_admin caller inst = true)
    (hvalid : ∀ e ∈ entries, validate_detail e = []) :
    ∃ db2 resp,
      updateOffer db pk caller
          { title := t, description := de, image := img, details := some entries } =
        .ok (db2, resp) ∧
      (∀ d ∈ db.details, (∀ e ∈ entries, e.id ≠ some d.id) → d ∈ db2.details) ∧
      ((∀ e ∈ entries, ∀ d ∈ db.details, e.id = some d.id → d.offer ≠ pk) →
        db2.details = db.details) := by
  have herr : ((entries.map validate_detail).filter (fun es => !es.isEmpty)) = [] := by
    rw [List.filter_eq_nil_iff]
    intro es hes
    obtain ⟨d, hd, rfl⟩ := List.mem_map.mp hes
    simp [List.isEmpty_iff, hvalid d hd]
  let details1 := apply_detail_updates pk entries db.details
  let inst1 : Offer :=
    { inst with
      title := t.getD inst.title
      description := de.getD inst.description
      image := img <|> inst.image
      updated_at := db.now }
  let db2 : Store :=
    { db with
      offers := db.offers.map (fun o => if o.id == pk then inst1 else o)
      details := update_details pk (entries.map strip_read_only_id) details1 }
  let resp : UpdatedData :=
    { id := pk, title := inst1.title, description := inst1.description
      details := (update_details pk (entries.map strip_read_only_id) details1).filter
        (fun d => d.offer == pk)
      image := inst1.image }
  refine ⟨db2, resp, ?_, ?_, ?_⟩
  · simp [updateOffer, hfind, hperm, herr, db2, resp, inst1, details1]
  · intro d hd hne
    show d ∈ db2.details
    have : db2.details = details1 := update_details_strip_noop pk entries details1
    rw [this]
    exact apply_detail_updates_mem pk entries db.details d hd hne
  · intro hnomatch
    show db2.details = db.details
    have h1 : db2.details = details1 := update_details_strip_noop pk entries details1
    rw [h1]
    exact apply_detail_updates_noop pk entries db.details hnomatch

/-- Witness for C8's amended theorem: a valid entry carrying the unknown id
999 is ignored and the offer's only detail row survives. -/
theorem C8_update_ignores_unknown_detail_ids_witness :
    ∃ db2 resp,
      updateOffer
          { offers := [{ id := 1, user := 1, title := "t", description := "d",
                         image := none, updated_at := 0, created_at := 0 }],
            details := [{ id := 10, title := "basic", price := 2,
                          delivery_time_in_days := 3, offer := 1, features := ["f"],
                          offer_type := "basic", revisions := 0 }],
            nextOfferId := 2, nextDetailId := 11, now := 7 }
          1 { id := 1, is_staff := false, profile := some { type := "business" } }
          { title := none, description := none, image := none,
            details := some [{ id := some 999, title := some "x", revisions := some 0,
                               delivery_time_in_days := some 2, price := some (mkRat 3 1),
                               features := some ["g"], offer_type := some "basic" }] } =
        .ok (db2, resp) ∧
      (∀ d ∈ [({ id := 10, title := "basic", price := 2,
                 delivery_time_in_days := 3, offer := 1, features := ["f"],
                 offer_type := "basic", revisions := 0 } : OfferDetail)],
        (∀ e ∈ [({ id := some 999, title := some "x", revisions := some 0,
                   delivery_time_in_days := some 2, price := some (mkRat 3 1),
                   features := some ["g"], offer_type := some "basic" } : DetailData)],
          e.id ≠ some d.id) → d ∈ db2.details) ∧
      ((∀ e ∈ [({ id := some 999, title := some "x", revisions := some 0,
                  delivery_time_in_days := some 2, price := some (mkRat 3 1),
                  features := some ["g"], offer_type := some "basic" } : DetailData)],
        ∀ d ∈ [({ id := 10, title := "basic", price := 2,
                  delivery_time_in_days := 3, offer := 1, features := ["f"],
                  offer_type := "basic", revisions := 0 } : OfferDetail)],
          e.id = some d.id → d.offer ≠ 1) →
        db2.details = [({ id := 10, title := "basic", price := 2,
                          delivery_time_in_days := 3, offer := 1, features := ["f"],
                          offer_type := "basic", revisions := 0 } : OfferDetail)]) :=
  C8_update_ignores_unknown_detail_ids
    { offers := [{ id := 1, user := 1, title := "t", description := "d",
                   image := none, updated_at := 0, created_at := 0 }],
      details := [{ id := 10, title := "basic", price := 2,
                    delivery_time_in_days := 3, offer := 1, features := ["f"],
                    offer_type := "basic", revisions := 0 }],
      nextOfferId := 2, nextDetailId := 11, now := 7 }
    1 { id := 1, is_staff := false, profile := some { type := "business" } }
    { id := 1, user := 1, title := "t", description := "d",
      image := none, updated_at := 0, created_at := 0 }
    none none none
    [{ id := some 999, title := some "x", revisions := some 0,
       delivery_time_in_days := some 2, price := some (mkRat 3 1),
       features := some ["g"], offer_type := some "basic" }]
    (by rfl) (by rfl) (by decide)

/-- The `min_price__gte` filter predicate matches exactly when the annotated
minimum exists and is at least the bound. -/
lemma min_price_filter_pred (db : Store) (o : Offer) (mp : ℚ) :
    ((match min_price_ann db o with
      | some m => decide (mp ≤ m)
      | none => false) = true) ↔
      ∃ m, min_price_ann db o = some m ∧ mp ≤ m := by
  cases h : min_price_ann db o <;> simp [h]

/-- Claim C9: under a `max_delivery_time` filter an offer is included exactly
when at least one of its own detail rows has delivery time within the bound
(so an offer with details at 3 and 7 days passes the bound 5); absent
parameters impose no constraint, present ones are AND-combined, and the
ordering is applied to the filtered set. -/
theorem C9_filtering (db : Store) (p : QueryParams) (o : Offer) (x : Int) :
    (o ∈ filterOffers db { creator_id := none, min_price := none,
                           max_delivery_time := some x, ordering := p.ordering } ↔
      o ∈ db.offers ∧ ∃ d ∈ db.details, d.offer = o.id ∧ d.delivery_time_in_days ≤ x) ∧
    (o ∈ filterOffers db p ↔ o ∈ db.offers ∧
      (∀ c, p.creator_id = some c → o.user = c) ∧
      (∀ mp, p.min_price = some mp → ∃ m, min_price_ann db o = some m ∧ mp ≤ m) ∧
      (∀ mx, p.max_delivery_time = some mx →
        ∃ d ∈ db.details, d.offer = o.id ∧ d.delivery_time_in_days ≤ mx)) ∧
    (filterOffers db { creator_id := none, min_price := none,
                       max_delivery_time := none, ordering := p.ordering } = db.offers) ∧
    (get_queryset db p = apply_ordering db (filterOffers db p) (p.ordering.getD "updated_at")) ∧
    (({ id := 1, user := 1, title := "t", description := "d", image := none,
        updated_at := 0, created_at := 0 } : Offer) ∈ filterOffers
      { offers := [{ id := 1, user := 1, title := "t", description := "d",
                     image := none, updated_at := 0, created_at := 0 }],
        details := [{ id := 10, title := "basic", price := 2, delivery_time_in_days := 3,
                      offer := 1, features := ["f"], offer_type := "basic", revisions := 0 },
                    { id := 11, title := "premium", price := 5, delivery_time_in_days := 7,
                      offer := 1, features := ["g"], offer_type := "premium", revisions := 0 }],
        nextOfferId := 2, nextDetailId := 12, now := 0 }
      { creator_id := none, min_price := none, max_delivery_time := some 5,
        ordering := none }) := by
  obtain ⟨cid, mpq, mdt, ord⟩ := p
  refine ⟨?_, ?_, ?_, rfl, by decide⟩
  · simp [filterOffers, List.mem_filter, List.any_eq_true, beq_iff_eq, and_assoc]
  · cases cid <;> cases mpq <;> cases mdt <;>
      simp [filterOffers, List.mem_filter, List.any_eq_true, min_price_filter_pred,
        beq_iff_eq, and_assoc] <;> tauto
  · rfl

/-- Claim C10: a business caller's create request whose details list is
empty or absent succeeds, persists the offer with zero details (the detail
table is untouched), and the offer's derived minima read as absent.
`hfresh` states that the fresh offer id is not yet referenced by any
dangling detail row, which every store reachable through the API satisfies. -/
theorem C10_create_without_details (db : Store) (caller : AuthUser)
    (ti de : String) (img : Option String)
    (hbiz : is_business_user caller = true)
    (hfresh : ∀ d ∈ db.details, d.offer ≠ db.nextOfferId) :
    ∀ dv ∈ ([none, some []] : List (Option (List DetailData))),
      ∃ db2 o,
        createOffer db caller
            { title := ti, description := de, image := img, details := dv } =
          .ok (db2, o) ∧
        db2.details = db.details ∧
        db2.offers = db.offers ++ [o] ∧
        o.user = caller.id ∧
        min_price_ann db2 o = none ∧
        min_delivery_ann db2 o = none := by
  have hfilter : db.details.filter (fun d => d.offer == db.nextOfferId) = [] := by
    rw [List.filter_eq_nil_iff]
    intro d hd
    simp [beq_iff_eq, hfresh d hd]
  intro dv hdv
  simp only [List.mem_cons, List.mem_singleton, List.not_mem_nil, or_false] at hdv
  have hget : dv.getD [] = [] := by
    rcases hdv with rfl | rfl <;> rfl
  let onew : Offer :=
    { id := db.nextOfferId, user := caller.id, title := ti,
      description := de, image := img, updated_at := db.now, created_at := db.now }
  let db2 : Store :=
    { db with
      offers := db.offers ++ [onew]
      details := db.details ++ ((dv.getD []).enum.map
        (fun pr => materialize_detail onew.id (db.nextDetailId + pr.1) pr.2))
      nextOfferId := db.nextOfferId + 1
      nextDetailId := db.nextDetailId + (dv.getD []).length }
  have hdet : db2.details = db.details := by
    show db.details ++ _ = db.details
    rw [hget]
    simp
  refine ⟨db2, onew, ?_, hdet, rfl, rfl, ?_, ?_⟩
  · show createOffer db caller
        { title := ti, description := de, image := img, details := dv } = .ok (db2, onew)
    simp [createOffer, offer_validate, hget, hbiz, db2, onew]
  · show min_price_ann db2 onew = none
    rw [min_price_ann, hdet]
    show ((db.details.filter (fun d => d.offer == db.nextOfferId)).map _).min? = none
    rw [hfilter]
    rfl
  · show min_delivery_ann db2 onew = none
    rw [min_delivery_ann, hdet]
    show ((db.details.filter (fun d => d.offer == db.nextOfferId)).map _).min? = none
    rw [hfilter]
    rfl

/-- Witness for C10: a business user creates an offer with the details key
absent on an empty store. -/
theorem C10_create_without_details_witness :
    ∃ db2 o,
      createOffer { offers := [], details := [], nextOfferId := 1, nextDetailId := 1, now := 0 }
          { id := 4, is_staff := false, profile := some { type := "business" } }
          { title := "t", description := "d", image := none, details := none } =
        .ok (db2, o) ∧
      db2.details = [] ∧
      db2.offers = [] ++ [o] ∧
      o.user = 4 ∧
      min_price_ann db2 o = none ∧
      min_delivery_ann db2 o = none :=
  C10_create_without_details
    { offers := [], details := [], nextOfferId := 1, nextDetailId := 1, now := 0 }
    { id := 4, is_staff := false, profile := some { type := "business" } }
    "t" "d" none (by rfl) (by simp)
    none (by simp)

end Coderr

